import Mathlib

/-!
Verification development for the component-markup-to-Markdown converter
(the batch script that rewrites Vue documentation pages into Markdown files
with frontmatter).  The converter is a chain of JavaScript
`String.prototype.replace` calls; we embed each call as an executable Lean
function over `List Char`, reproducing the ECMAScript semantics the script
relies on: global leftmost matching, greedy / lazy quantifiers with
backtracking, multiline anchors, string replacement templates with `$1`
substitution, and function replacers (whose return value is used literally,
without `$1` substitution).
-/

set_option maxRecDepth 1000000
set_option maxHeartbeats 2000000

namespace BaseDocs

/-! ### JavaScript character classes and string primitives -/

/-- ECMAScript whitespace class membership for the characters that can occur
in the converter's inputs (`\s`). -/
def isWs (c : Char) : Bool :=
  c == ' ' || c == '\t' || c == '\n' || c == '\r' || c == '\x0b' || c == '\x0c'

/-- ECMAScript word-character class `\w` (ASCII letters, digits, underscore). -/
def isWordChar (c : Char) : Bool :=
  c.isAlphanum || c == '_'

/-- Character class `[A-Z]`. -/
def isUpperAZ (c : Char) : Bool :=
  'A' ≤ c && c ≤ 'Z'

/-- Character class `[a-zA-Z-]`. -/
def alphaDash (c : Char) : Bool :=
  c.isAlpha || c == '-'

/-- Character class `[\w-]`. -/
def wordDash (c : Char) : Bool :=
  isWordChar c || c == '-'

/-- Character class `[\s\S]` (any character). -/
def anyChar (_ : Char) : Bool := true

/-- Character class `.` without the `s` flag (any character but a newline). -/
def notNl (c : Char) : Bool := c != '\n'

/-- Character class `[^>]`. -/
def notGt (c : Char) : Bool := c != '>'

/-- Character class `[^"]`. -/
def notQuote (c : Char) : Bool := c != '"'

/-- Character class `\n`. -/
def isNl (c : Char) : Bool := c == '\n'

/-- Decide whether `p` is a prefix of `s`. -/
def isPre : List Char → List Char → Bool
  | [], _ => true
  | _ :: _, [] => false
  | p :: ps, s :: ss => p == s && isPre ps ss

/-- Decide whether `needle` occurs as a contiguous substring of `hay`. -/
def containsSubL : List Char → List Char → Bool
  | [], needle => isPre needle []
  | c :: t, needle => isPre needle (c :: t) || containsSubL t needle

/-- JavaScript `String.prototype.trim`: drop whitespace from both ends. -/
def jsTrim (s : List Char) : List Char :=
  ((s.dropWhile isWs).reverse.dropWhile isWs).reverse

/-- JavaScript `split('\n')`: split a string at every newline; a trailing
newline yields a trailing empty piece, and the empty string yields one
empty piece. -/
def splitNl : List Char → List (List Char)
  | [] => [[]]
  | c :: rest =>
    let r := splitNl rest
    if c == '\n' then [] :: r
    else
      match r with
      | [] => [[c]]
      | g :: gs => (c :: g) :: gs

/-- JavaScript `join('\n')`. -/
def joinNl : List (List Char) → List Char
  | [] => []
  | [l] => l
  | l :: ls => l ++ '\n' :: joinNl ls

/-- JavaScript `replace(pat, rep)` with a plain-string pattern: replace only
the first occurrence of `pat` (left unchanged when `pat` does not occur). -/
def replFirstL (pat rep : List Char) : List Char → List Char
  | [] => []
  | c :: rest =>
    if isPre pat (c :: rest) then rep ++ (c :: rest).drop pat.length
    else c :: replFirstL pat rep rest

/-! ### A small backtracking matcher for the source's regular expressions

Each regex in the script is encoded as an `Rx` term; `mrun` enumerates the
ways the regex can match a prefix of the input at the current position, in
ECMAScript preference order (greedy quantifiers longest first, lazy
quantifiers shortest first, alternatives in sequence order), so the head of
the enumeration is the match the JavaScript engine picks.  The matcher
carries the previous character so that the multiline anchors `^` and `$`
can be decided locally. -/

inductive Rx where
  | eps : Rx
  | ch : (Char → Bool) → Rx
  | str : List Char → Rx
  | seq : Rx → Rx → Rx
  | starG : (Char → Bool) → Rx
  | starL : (Char → Bool) → Rx
  | grp : Rx → Rx
  | bol : Rx
  | eol : Rx
  | nla : (Char → Bool) → Rx

/-- Sequence a list of regexes. -/
def rxSeq (l : List Rx) : Rx := l.foldr Rx.seq Rx.eps

/-- All splits of `s` into a run of `p`-characters and a remainder, shortest
run first, each paired with the character preceding the remainder. -/
def classSplits (p : Char → Bool) : List Char → Option Char → List (List Char × Option Char)
  | [], prev => [([], prev)]
  | c :: rest, prev =>
    (c :: rest, prev) :: (if p c then classSplits p rest (some c) else [])

/-- A match candidate: captured groups in order, the remaining input, and
the character immediately before the remaining input. -/
abbrev Cand := List (List Char) × List Char × Option Char

/-- Enumerate the prefix matches of `r` against `s` in ECMAScript preference
order.  `prev` is the character before `s` (`none` at the start of the
whole string). -/
def mrun : Rx → List Char → Option Char → List Cand
  | .eps, s, prev => [([], s, prev)]
  | .ch p, s, _ =>
    match s with
    | [] => []
    | c :: rest => if p c then [([], rest, some c)] else []
  | .str l, s, prev =>
    if isPre l s then [([], s.drop l.length, ((l.getLast?).orElse fun _ => prev))] else []
  | .seq a b, s, prev =>
    (mrun a s prev).flatMap fun x =>
      (mrun b x.2.1 x.2.2).map fun y => (x.1 ++ y.1, y.2.1, y.2.2)
  | .starG p, s, prev =>
    (classSplits p s prev).reverse.map fun x => ([], x.1, x.2)
  | .starL p, s, prev =>
    (classSplits p s prev).map fun x => ([], x.1, x.2)
  | .grp r, s, prev =>
    (mrun r s prev).map fun x =>
      (x.1 ++ [s.take (s.length - x.2.1.length)], x.2.1, x.2.2)
  | .bol, s, prev =>
    match prev with
    | none => [([], s, prev)]
    | some c => if c == '\n' then [([], s, prev)] else []
  | .eol, s, prev =>
    match s with
    | [] => [([], s, prev)]
    | c :: _ => if c == '\n' then [([], s, prev)] else []
  | .nla p, s, prev =>
    match s with
    | [] => [([], s, prev)]
    | c :: _ => if p c then [] else [([], s, prev)]

/-- The match the JavaScript engine picks at the current position, if any. -/
def mfirst (r : Rx) (s : List Char) (prev : Option Char) : Option Cand :=
  (mrun r s prev).head?

/-- Global replacement: scan left to right, replace each match of `r` by
`f` applied to its captures, and resume after the match (replaced text is
never rescanned).  `fuel` bounds the recursion; every regex in the script
consumes at least one character per match, so `length + 1` fuel suffices. -/
def replGo (r : Rx) (f : List (List Char) → List Char) : Nat → Option Char → List Char → List Char
  | 0, _, s => s
  | _ + 1, _, [] => []
  | n + 1, prev, c :: rest =>
    match mfirst r (c :: rest) prev with
    | some x => f x.1 ++ replGo r f n x.2.2 x.2.1
    | none => c :: replGo r f n (some c) rest

/-- JavaScript `replace(regex, replacement)` with the `g` flag. -/
def rxRepl (r : Rx) (f : List (List Char) → List Char) (s : List Char) : List Char :=
  replGo r f (s.length + 1) none s

/-- Replacement that deletes the match. -/
def del : List (List Char) → List Char := fun _ => []

/-- First captured group of a match (empty when absent). -/
def cap1 (caps : List (List Char)) : List Char := caps.getD 0 []

/-- Second captured group of a match (empty when absent). -/
def cap2 (caps : List (List Char)) : List Char := caps.getD 1 []

/-! ### The source's regular expressions

One `Rx` term per regex literal in `convertVueToMarkdown`, in source order. -/

/-- Regex `<script[^>]*>[\s\S]*?<\/script>` (flag `g`). -/
def scriptRx : Rx :=
  rxSeq [.str "<script".data, .starG notGt, .str ">".data, .starL anyChar, .str "</script>".data]

/-- Regex `<style[^>]*>[\s\S]*?<\/style>` (flag `g`). -/
def styleRx : Rx :=
  rxSeq [.str "<style".data, .starG notGt, .str ">".data, .starL anyChar, .str "</style>".data]

/-- Regex `<!--[\s\S]*?-->` (flag `g`). -/
def commentRx : Rx :=
  rxSeq [.str "<!--".data, .starL anyChar, .str "-->".data]

/-- Regex `<[A-Z][^>]*>` (flag `g`). -/
def openCompRx : Rx :=
  rxSeq [.str "<".data, .ch isUpperAZ, .starG notGt, .str ">".data]

/-- Regex `<\/[A-Z][^>]*>` (flag `g`). -/
def closeCompRx : Rx :=
  rxSeq [.str "</".data, .ch isUpperAZ, .starG notGt, .str ">".data]

/-- Regex `v-[a-zA-Z-]+="[^"]*"` (flag `g`). -/
def vBindRx : Rx :=
  rxSeq [.str "v-".data, .ch alphaDash, .starG alphaDash, .str "=\"".data,
    .starG notQuote, .str "\"".data]

/-- Regex `:[\w-]+="[^"]*"` (flag `g`). -/
def colonBindRx : Rx :=
  rxSeq [.str ":".data, .ch wordDash, .starG wordDash, .str "=\"".data,
    .starG notQuote, .str "\"".data]

/-- Regex `@[\w-]+="[^"]*"` (flag `g`). -/
def atBindRx : Rx :=
  rxSeq [.str "@".data, .ch wordDash, .starG wordDash, .str "=\"".data,
    .starG notQuote, .str "\"".data]

/-- Regex `<pre[^>]*><code[^>]*class="language-([^"]*)"[^>]*>([\s\S]*?)<\/code><\/pre>`
(flag `g`). -/
def preCodeLangRx : Rx :=
  rxSeq [.str "<pre".data, .starG notGt, .str ">".data,
    .str "<code".data, .starG notGt, .str "class=\"language-".data,
    .grp (.starG notQuote), .str "\"".data, .starG notGt, .str ">".data,
    .grp (.starL anyChar), .str "</code>".data, .str "</pre>".data]

/-- Regex `<pre[^>]*><code[^>]*>([\s\S]*?)<\/code><\/pre>` (flag `g`). -/
def preCodeRx : Rx :=
  rxSeq [.str "<pre".data, .starG notGt, .str ">".data,
    .str "<code".data, .starG notGt, .str ">".data,
    .grp (.starL anyChar), .str "</code>".data, .str "</pre>".data]

/-- Regex `<pre[^>]*>([\s\S]*?)<\/pre>` (flag `g`). -/
def preRx : Rx :=
  rxSeq [.str "<pre".data, .starG notGt, .str ">".data,
    .grp (.starL anyChar), .str "</pre>".data]

/-- Regex `<code[^>]*class="language-([^"]*)"[^>]*>(.*?)<\/code>` (flag `g`,
no `s` flag: the lazy dot does not cross newlines). -/
def codeLangRx : Rx :=
  rxSeq [.str "<code".data, .starG notGt, .str "class=\"language-".data,
    .grp (.starG notQuote), .str "\"".data, .starG notGt, .str ">".data,
    .grp (.starL notNl), .str "</code>".data]

/-- Regex `<hN[^>]*>(.*?)<\/hN>` (flags `gs`) for one heading level, given the
digit character of the level. -/
def hdrRx (d : Char) : Rx :=
  rxSeq [.str ['<', 'h', d], .starG notGt, .str ">".data,
    .grp (.starL anyChar), .str ['<', '/', 'h', d, '>']]

/-- Regex `<li[^>]*>([\s\S]*?)<\/li>` (flags `gs`), used inside both list
callbacks. -/
def liRx : Rx :=
  rxSeq [.str "<li".data, .starG notGt, .str ">".data,
    .grp (.starL anyChar), .str "</li>".data]

/-- Regex `<ul[^>]*>([\s\S]*?)<\/ul>` (flag `g`). -/
def ulRx : Rx :=
  rxSeq [.str "<ul".data, .starG notGt, .str ">".data,
    .grp (.starL anyChar), .str "</ul>".data]

/-- Regex `<ol[^>]*>([\s\S]*?)<\/ol>` (flag `g`). -/
def olRx : Rx :=
  rxSeq [.str "<ol".data, .starG notGt, .str ">".data,
    .grp (.starL anyChar), .str "</ol>".data]

/-- Regex `<p[^>]*>([\s\S]*?)<\/p>` (flags `gs`). -/
def pRx : Rx :=
  rxSeq [.str "<p".data, .starG notGt, .str ">".data,
    .grp (.starL anyChar), .str "</p>".data]

/-- Regex `<strong[^>]*>(.*?)<\/strong>` (flags `gs`). -/
def strongRx : Rx :=
  rxSeq [.str "<strong".data, .starG notGt, .str ">".data,
    .grp (.starL anyChar), .str "</strong>".data]

/-- Regex `<b[^>]*>(.*?)<\/b>` (flags `gs`). -/
def bTagRx : Rx :=
  rxSeq [.str "<b".data, .starG notGt, .str ">".data,
    .grp (.starL anyChar), .str "</b>".data]

/-- Regex `<em[^>]*>(.*?)<\/em>` (flags `gs`). -/
def emRx : Rx :=
  rxSeq [.str "<em".data, .starG notGt, .str ">".data,
    .grp (.starL anyChar), .str "</em>".data]

/-- Regex `<i[^>]*>(.*?)<\/i>` (flags `gs`). -/
def iTagRx : Rx :=
  rxSeq [.str "<i".data, .starG notGt, .str ">".data,
    .grp (.starL anyChar), .str "</i>".data]

/-- Regex `<code[^>]*>(.*?)<\/code>` (flags `gs`). -/
def codeInlineRx : Rx :=
  rxSeq [.str "<code".data, .starG notGt, .str ">".data,
    .grp (.starL anyChar), .str "</code>".data]

/-- Regex `<a[^>]*href="([^"]*)"[^>]*>(.*?)<\/a>` (flags `gs`). -/
def aRx : Rx :=
  rxSeq [.str "<a".data, .starG notGt, .str "href=\"".data,
    .grp (.starG notQuote), .str "\"".data, .starG notGt, .str ">".data,
    .grp (.starL anyChar), .str "</a>".data]

/-- Regex `<blockquote[^>]*>([\s\S]*?)<\/blockquote>` (flag `g`). -/
def bqRx : Rx :=
  rxSeq [.str "<blockquote".data, .starG notGt, .str ">".data,
    .grp (.starL anyChar), .str "</blockquote>".data]

/-- Regex `<div[^>]*class="[^"]*code[^"]*"[^>]*>([\s\S]*?)<\/div>` (flags `gs`). -/
def divCodeRx : Rx :=
  rxSeq [.str "<div".data, .starG notGt, .str "class=\"".data,
    .starG notQuote, .str "code".data, .starG notQuote, .str "\"".data,
    .starG notGt, .str ">".data, .grp (.starL anyChar), .str "</div>".data]

/-- Regex `<div[^>]*class="[^"]*highlight[^"]*"[^>]*>([\s\S]*?)<\/div>` (flags `gs`). -/
def divHighlightRx : Rx :=
  rxSeq [.str "<div".data, .starG notGt, .str "class=\"".data,
    .starG notQuote, .str "highlight".data, .starG notQuote, .str "\"".data,
    .starG notGt, .str ">".data, .grp (.starL anyChar), .str "</div>".data]

/-- Regex `^•\s*` (flags `gm`). -/
def bulletRx : Rx := rxSeq [.bol, .str "•".data, .starG isWs]

/-- Regex `^\*\s+(?!\*)` (flags `gm`). -/
def starBulletRx : Rx :=
  rxSeq [.bol, .str "*".data, .ch isWs, .starG isWs, .nla (fun c => c == '*')]

/-- Regex `^◦\s*` (flags `gm`). -/
def circBulletRx : Rx := rxSeq [.bol, .str "◦".data, .starG isWs]

/-- Regex `^▪\s*` (flags `gm`). -/
def sqBulletRx : Rx := rxSeq [.bol, .str "▪".data, .starG isWs]

/-- Regex `^-\s*•\s*` (flags `gm`). -/
def dashBulletRx : Rx :=
  rxSeq [.bol, .str "-".data, .starG isWs, .str "•".data, .starG isWs]

/-- Regex `^-\s*\*\s*` (flags `gm`). -/
def dashStarRx : Rx :=
  rxSeq [.bol, .str "-".data, .starG isWs, .str "*".data, .starG isWs]

/-- Regex `^-\s*-\s*` (flags `gm`). -/
def dashDashRx : Rx :=
  rxSeq [.bol, .str "-".data, .starG isWs, .str "-".data, .starG isWs]

/-- Regex `^-\s+-\s+` (flags `gm`). -/
def dashSpDashSpRx : Rx :=
  rxSeq [.bol, .str "-".data, .ch isWs, .starG isWs, .str "-".data, .ch isWs, .starG isWs]

/-- Regex `^-\s*-\s+` (flags `gm`). -/
def dashDashSpRx : Rx :=
  rxSeq [.bol, .str "-".data, .starG isWs, .str "-".data, .ch isWs, .starG isWs]

/-- Regex `<[^>]+>` (flag `g`). -/
def tagRx : Rx :=
  rxSeq [.str "<".data, .ch notGt, .starG notGt, .str ">".data]

/-- Regex `\n\s*\n\s*\n+` (flag `g`). -/
def tripleBlankRx : Rx :=
  rxSeq [.str "\n".data, .starG isWs, .str "\n".data, .starG isWs, .ch isNl, .starG isNl]

/-- Regex `^\s+` (flags `gm`). -/
def leadWsRx : Rx := rxSeq [.bol, .ch isWs, .starG isWs]

/-- Regex `\s+$` (flags `gm`). -/
def trailWsRx : Rx := rxSeq [.ch isWs, .starG isWs, .eol]

/-- Regex `\n{3,}` (flag `g`). -/
def manyNlRx : Rx := rxSeq [.ch isNl, .ch isNl, .ch isNl, .starG isNl]

/-! ### Replacement callbacks -/

/-- Body of the `<ul>` callback: `listContent.replace(liRegex, '- $1\n')` —
a string replacement, so `$1` substitutes the captured item text. -/
def ulItems (listContent : List Char) : List Char :=
  rxRepl liRx (fun caps => "- ".data ++ cap1 caps ++ "\n".data) listContent

/-- The `<ul>` callback: `'\n' + items + '\n'`. -/
def ulRepl (caps : List (List Char)) : List Char :=
  '\n' :: ulItems (cap1 caps) ++ "\n".data

/-- Scanner for the `<ol>` callback.  The source replaces each `<li>` with
the return value of an arrow function, so the `$1` in its template literal
is NOT substituted: the replacement is the literal text `"N. $1\n"` with
`N` the incrementing counter (starting at 1). -/
def olGo : Nat → Nat → Option Char → List Char → List Char
  | 0, _, _, s => s
  | _ + 1, _, _, [] => []
  | n + 1, counter, prev, c :: rest =>
    match mfirst liRx (c :: rest) prev with
    | some x => (Nat.repr counter).data ++ ". $1\n".data ++ olGo n (counter + 1) x.2.2 x.2.1
    | none => c :: olGo n counter (some c) rest

/-- Body of the `<ol>` callback: `let counter = 1; listContent.replace(liRegex,
() => counter++ + '. $1\n')`. -/
def olItems (listContent : List Char) : List Char :=
  olGo (listContent.length + 1) 1 none listContent

/-- The `<ol>` callback: `'\n' + items + '\n'`. -/
def olRepl (caps : List (List Char)) : List Char :=
  '\n' :: olItems (cap1 caps) ++ "\n".data

/-- Body of the `<blockquote>` callback:
`content.split('\n').map(line => '> ' + line.trim()).filter(line =>
line.trim() !== '>').join('\n')`. -/
def bqBody (content : List Char) : List Char :=
  joinNl (((splitNl content).map (fun line => "> ".data ++ jsTrim line)).filter
    (fun line => jsTrim line != ['>']))

/-- The `<blockquote>` callback: `'\n' + body + '\n\n'`. -/
def bqRepl (caps : List (List Char)) : List Char :=
  '\n' :: bqBody (cap1 caps) ++ "\n\n".data

/-! ### The conversion pipeline -/

/-- Template-section extraction (the first `replace` chain of
`convertVueToMarkdown`): strip `<template>` wrappers, `<script>` blocks,
`<style>` blocks and HTML comments, then trim. -/
def extractContent (vueContent : List Char) : List Char :=
  vueContent
    |> rxRepl (.str "<template>".data) del
    |> rxRepl (.str "</template>".data) del
    |> rxRepl scriptRx del
    |> rxRepl styleRx del
    |> rxRepl commentRx del
    |> jsTrim

/-- The ordered block transformation (the second `replace` chain of
`convertVueToMarkdown`), with every stage in source order. -/
def transformContent (s : List Char) : List Char :=
  s |> rxRepl openCompRx del
    |> rxRepl closeCompRx del
    |> rxRepl vBindRx del
    |> rxRepl colonBindRx del
    |> rxRepl atBindRx del
    |> rxRepl preCodeLangRx (fun caps =>
        "```".data ++ cap1 caps ++ "\n".data ++ cap2 caps ++ "\n```".data)
    |> rxRepl preCodeRx (fun caps => "```\n".data ++ cap1 caps ++ "\n```".data)
    |> rxRepl preRx (fun caps => "```\n".data ++ cap1 caps ++ "\n```".data)
    |> rxRepl codeLangRx (fun caps =>
        "```".data ++ cap1 caps ++ "\n".data ++ cap2 caps ++ "\n```".data)
    |> rxRepl (hdrRx '1') (fun caps => "\n# ".data ++ cap1 caps ++ "\n\n".data)
    |> rxRepl (hdrRx '2') (fun caps => "\n## ".data ++ cap1 caps ++ "\n\n".data)
    |> rxRepl (hdrRx '3') (fun caps => "\n### ".data ++ cap1 caps ++ "\n\n".data)
    |> rxRepl (hdrRx '4') (fun caps => "\n#### ".data ++ cap1 caps ++ "\n\n".data)
    |> rxRepl (hdrRx '5') (fun caps => "\n##### ".data ++ cap1 caps ++ "\n\n".data)
    |> rxRepl (hdrRx '6') (fun caps => "\n###### ".data ++ cap1 caps ++ "\n\n".data)
    |> rxRepl ulRx ulRepl
    |> rxRepl olRx olRepl
    |> rxRepl pRx (fun caps => cap1 caps ++ "\n\n".data)
    |> rxRepl strongRx (fun caps => "**".data ++ cap1 caps ++ "**".data)
    |> rxRepl bTagRx (fun caps => "**".data ++ cap1 caps ++ "**".data)
    |> rxRepl emRx (fun caps => "*".data ++ cap1 caps ++ "*".data)
    |> rxRepl iTagRx (fun caps => "*".data ++ cap1 caps ++ "*".data)
    |> rxRepl codeInlineRx (fun caps => "`".data ++ cap1 caps ++ "`".data)
    |> rxRepl aRx (fun caps => "[".data ++ cap2 caps ++ "](".data ++ cap1 caps ++ ")".data)
    |> rxRepl bqRx bqRepl
    |> rxRepl divCodeRx (fun caps => "```\n".data ++ cap1 caps ++ "\n```".data)
    |> rxRepl divHighlightRx (fun caps => "```\n".data ++ cap1 caps ++ "\n```".data)
    |> rxRepl bulletRx (fun _ => "- ".data)
    |> rxRepl starBulletRx (fun _ => "- ".data)
    |> rxRepl circBulletRx (fun _ => "  - ".data)
    |> rxRepl sqBulletRx (fun _ => "  - ".data)
    |> rxRepl dashBulletRx (fun _ => "- ".data)
    |> rxRepl dashStarRx (fun _ => "- ".data)
    |> rxRepl dashDashRx (fun _ => "- ".data)
    |> rxRepl dashSpDashSpRx (fun _ => "- ".data)
    |> rxRepl dashDashSpRx (fun _ => "- ".data)
    |> rxRepl tagRx del
    |> rxRepl tripleBlankRx (fun _ => "\n\n".data)
    |> rxRepl leadWsRx del
    |> rxRepl trailWsRx del
    |> rxRepl manyNlRx (fun _ => "\n\n".data)
    |> jsTrim

/-! ### Title derivation and document composition -/

/-- ASCII upper-casing, as `toUpperCase` acts on the characters reachable
from the converter's file names. -/
def jsUpper (c : Char) : Char := c.toUpper

/-- Scanner for `replace(/\b\w/g, l => l.toUpperCase())`: upper-case every
word character that is not preceded by a word character. -/
def capWordsGo : Option Char → List Char → List Char
  | _, [] => []
  | prev, c :: rest =>
    let atBoundary := isWordChar c && !(match prev with
      | some d => isWordChar d
      | none => false)
    (if atBoundary then jsUpper c else c) :: capWordsGo (some c) rest

/-- Title derivation from the file name: drop the first occurrence of
`.vue`, turn every hyphen into a space (the global hyphen regex), then
upper-case word-initial characters (`replace(/\b\w/g, l => l.toUpperCase())`). -/
def deriveTitleL (filename : List Char) : List Char :=
  capWordsGo none ((replFirstL ".vue".data [] filename).map
    (fun c => if c == '-' then ' ' else c))

/-- The frontmatter block emitted before the converted body. -/
def frontmatterL (title : List Char) : List Char :=
  "---\ntitle: ".data ++ title ++ "\ndescription: ".data ++ title ++
    " documentation for Base Framework.\n---\n\n".data

/-- JavaScript `content.startsWith('#')`. -/
def startsHash : List Char → Bool
  | '#' :: _ => true
  | _ => false

/-- The body of the produced document: the transformed content, with
`# <Title>` prepended when the content does not already start with `#`. -/
def convertBodyL (vueContent filename : List Char) : List Char :=
  let title := deriveTitleL filename
  let content := transformContent (extractContent vueContent)
  if startsHash content then content
  else "# ".data ++ title ++ "\n\n".data ++ content

/-- The whole of `convertVueToMarkdown`: frontmatter followed by the body. -/
def convertL (vueContent filename : List Char) : List Char :=
  frontmatterL (deriveTitleL filename) ++ convertBodyL vueContent filename

/-- String-level wrapper of the converter. -/
def convertVueToMarkdown (vueContent filename : String) : String :=
  String.mk (convertL vueContent.data filename.data)

/-! ### The batch orchestrator

The script iterates a fixed list of file names; for each it checks
existence, reads, converts, and writes, inside a per-file `try`/`catch`.
We model the filesystem and the possibility that any step throws by an
environment of `Except`-valued operations, and keep the converter a
parameter so that failure of extraction or transformation is expressible. -/

/-- Source directory constant of the script. -/
def SOURCE_DIR : String := "../base-web/src/pages/docs"

/-- Destination directory constant of the script. -/
def DEST_DIR : String := "./md/docs"

/-- The configured file list of the script. -/
def vueFiles : List String :=
  ["installation.vue", "quick-start.vue", "tutorial.vue", "cli.vue",
   "structure.vue", "anatomy.vue", "application.vue", "auth.vue",
   "configuration.vue", "router.vue", "middleware.vue", "validator.vue",
   "storage.vue", "email.vue", "logger.vue", "scheduler.vue",
   "websocket.vue", "emitter.vue", "translation.vue", "base-helpers.vue",
   "api.vue"]

/-- String-level first-occurrence replacement (JavaScript `replace` with a
string pattern). -/
def replFirstS (pat rep s : String) : String :=
  String.mk (replFirstL pat.data rep.data s.data)

/-- Filesystem environment: existence test, read, and write, the latter two
allowed to throw. -/
structure Env where
  existsF : String → Bool
  read : String → Except String String
  write : String → String → Except String Unit

/-- One iteration of the `forEach` body: returns the write performed (if
any) as a destination-path/content pair, and the console message produced.
Every throwing step lands in the `catch` branch, which only logs. -/
def fileStep (conv : String → String → Except String String) (env : Env)
    (file : String) : Option (String × String) × String :=
  let sourcePath := SOURCE_DIR ++ "/" ++ file
  let mdFile := replFirstS ".vue" ".md" file
  let destPath := DEST_DIR ++ "/" ++ mdFile
  if env.existsF sourcePath then
    match env.read sourcePath with
    | .error e => (none, "❌ Error converting " ++ file ++ ": " ++ e)
    | .ok vueContent =>
      match conv vueContent file with
      | .error e => (none, "❌ Error converting " ++ file ++ ": " ++ e)
      | .ok markdown =>
        match env.write destPath markdown with
        | .error e => (none, "❌ Error converting " ++ file ++ ": " ++ e)
        | .ok _ => (some (destPath, markdown), "✅ Converted " ++ file ++ " → " ++ mdFile)
  else (none, "⚠️  File not found: " ++ sourcePath)

/-- The message logged after the loop. -/
def finalMsg : String := "\n🎉 Documentation conversion complete!"

/-- The `forEach` loop: accumulate written files and console messages in
order. -/
def runBatchGo (conv : String → String → Except String String) (env : Env) :
    List String → List (String × String) × List String
  | [] => ([], [])
  | f :: rest =>
    let r := fileStep conv env f
    let r2 := runBatchGo conv env rest
    (match r.1 with
     | some w => w :: r2.1
     | none => r2.1,
     r.2 :: r2.2)

/-- The whole batch run: the loop followed by the completion message. -/
def runBatch (conv : String → String → Except String String) (env : Env)
    (files : List String) : List (String × String) × List String :=
  let r := runBatchGo conv env files
  (r.1, r.2 ++ [finalMsg])

/-- The converter as used by the script: `convertVueToMarkdown` never
throws on its own. -/
def realConv : String → String → Except String String :=
  fun content file => .ok (convertVueToMarkdown content file)

/-- String-level substring test, used to state that a log message mentions
a file. -/
def containsSub (s t : String) : Bool :=
  containsSubL s.data t.data

/-! ### Concrete environments used by the batch-level statements -/

/-- Environment with `a.vue` and `c.vue` present and readable and `b.vue`
missing; writes always succeed. -/
def envC2 : Env :=
  Env.mk
    (fun p => p == "../base-web/src/pages/docs/a.vue" ||
              p == "../base-web/src/pages/docs/c.vue")
    (fun p =>
      if p == "../base-web/src/pages/docs/a.vue" then .ok "<h1>Alpha</h1>"
      else if p == "../base-web/src/pages/docs/c.vue" then .ok "<h1>Gamma</h1>"
      else .error "ENOENT")
    (fun _ _ => .ok ())

/-- Environment where every file exists, reads yield a fixed document, and
writes succeed. -/
def envOk : Env :=
  Env.mk (fun _ => true) (fun _ => .ok "<h1>Doc</h1>") (fun _ _ => .ok ())

/-- A converter that always throws, standing in for a transformation
failure. -/
def convFail : String → String → Except String String :=
  fun _ _ => .error "boom"

/-! ### Helper lemmas about substring containment and the batch loop -/

theorem isPre_append (n y : List Char) : isPre n (n ++ y) = true := by
  induction n with
  | nil => rfl
  | cons c t ih => simp [isPre, ih]

theorem containsSubL_nil_needle (y : List Char) : containsSubL y [] = true := by
  cases y <;> simp [containsSubL, isPre]

theorem containsSubL_here (n y : List Char) : containsSubL (n ++ y) n = true := by
  cases n with
  | nil => simpa using containsSubL_nil_needle y
  | cons c t =>
    have h := isPre_append (c :: t) y
    simp only [List.cons_append] at h ⊢
    simp [containsSubL, h]

theorem containsSubL_cons (c : Char) (t n : List Char)
    (h : containsSubL t n = true) : containsSubL (c :: t) n = true := by
  simp [containsSubL, h]

theorem containsSubL_append_left (x h n : List Char)
    (hh : containsSubL h n = true) : containsSubL (x ++ h) n = true := by
  induction x with
  | nil => simpa using hh
  | cons c t ih => simpa using containsSubL_cons c (t ++ h) n ih

theorem containsSub_mid (w f c e : String) :
    containsSub (w ++ f ++ c ++ e) f = true := by
  show containsSubL (w ++ f ++ c ++ e).data f.data = true
  simp only [String.data_append, List.append_assoc]
  exact containsSubL_append_left _ _ _ (containsSubL_here _ _)

theorem containsSub_end (w s d f : String) :
    containsSub (w ++ (s ++ d ++ f)) f = true := by
  show containsSubL (w ++ (s ++ d ++ f)).data f.data = true
  simp only [String.data_append, List.append_assoc]
  apply containsSubL_append_left
  apply containsSubL_append_left
  apply containsSubL_append_left
  simpa using containsSubL_here f.data []

theorem fileStep_log_mentions (conv : String → String → Except String String)
    (env : Env) (f : String) : containsSub (fileStep conv env f).2 f = true := by
  unfold fileStep
  dsimp only
  split
  · split
    · exact containsSub_mid "❌ Error converting " f ": " _
    · split
      · exact containsSub_mid "❌ Error converting " f ": " _
      · split
        · exact containsSub_mid "❌ Error converting " f ": " _
        · exact containsSub_mid "✅ Converted " f " → " _
  · exact containsSub_end "⚠️  File not found: " SOURCE_DIR "/" f

theorem runBatchGo_spec (conv : String → String → Except String String)
    (env : Env) (files : List String) :
    (runBatchGo conv env files).2 = files.map (fun f => (fileStep conv env f).2)
  ∧ (runBatchGo conv env files).1 =
      files.filterMap (fun f => (fileStep conv env f).1) := by
  induction files with
  | nil => exact ⟨rfl, rfl⟩
  | cons f rest ih =>
    cases h : (fileStep conv env f).1 with
    | none => simp [runBatchGo, h, ih.1, ih.2, List.filterMap_cons]
    | some w => simp [runBatchGo, h, ih.1, ih.2, List.filterMap_cons]

/-! ### Claim theorems -/

/-- C1: the ordered-list stage numbers items sequentially starting at 1,
but the replacer is an arrow function whose returned `$1` is not
substituted, so the items' text is lost: `<ol><li>A</li><li>B</li></ol>`
produces the literal lines `1. $1` and `2. $1` instead of `1. A` and
`2. B`. -/
theorem c1_ol_items_literal :
    splitNl (convertBodyL "<ol><li>A</li><li>B</li></ol>".data "list.vue".data) =
      ["# List".data, [], "1. $1".data, "2. $1".data] := by decide

/-- C2 counterexample: with `b.vue` missing and `a.vue`, `c.vue` readable,
the batch run logs exactly one marker per file plus a fixed completion
message; no message mentions success or failure counts (none contains
the words success or fail, nor any digit), so the orchestrator does not
report total attempted, succeeded, and failed counts. -/
theorem c2_cex :
    (runBatch realConv envC2 ["a.vue", "b.vue", "c.vue"]).2 =
      ["✅ Converted a.vue → a.md",
       "⚠️  File not found: ../base-web/src/pages/docs/b.vue",
       "✅ Converted c.vue → c.md",
       "\n🎉 Documentation conversion complete!"]
  ∧ ∀ m ∈ (runBatch realConv envC2 ["a.vue", "b.vue", "c.vue"]).2,
      containsSub m "success" = false ∧ containsSub m "fail" = false ∧
      m.data.all (fun c => !c.isDigit) = true := by decide

/-- C2 amended: with one configured file missing and two others valid, the
run writes exactly two output files (named by swapping `.vue` for `.md`)
and logs one per-file marker plus a fixed completion message, without any
aggregate counts. -/
theorem c2_two_outputs :
    ((runBatch realConv envC2 ["a.vue", "b.vue", "c.vue"]).1).map Prod.fst =
      ["./md/docs/a.md", "./md/docs/c.md"]
  ∧ ((runBatch realConv envC2 ["a.vue", "b.vue", "c.vue"]).1).length = 2
  ∧ ((runBatch realConv envC2 ["a.vue", "b.vue", "c.vue"]).2).length = 4 := by decide

/-- C3 counterexample: for `<p>x</p><h1>Hello</h1>` (a document with
exactly one `<h1>`, preceded by other content) the body's first line is
the title heading `# Quick Start`, not `# Hello`, and the body contains
two level-1 heading lines. -/
theorem c3_cex :
    splitNl (convertBodyL "<p>x</p><h1>Hello</h1>".data "quick-start.vue".data) =
      ["# Quick Start".data, [], "x".data, "# Hello".data]
  ∧ (splitNl (convertBodyL "<p>x</p><h1>Hello</h1>".data "quick-start.vue".data)).head? ≠
      some "# Hello".data
  ∧ ((splitNl (convertBodyL "<p>x</p><h1>Hello</h1>".data "quick-start.vue".data)).filter
      (fun l => isPre "# ".data l)).length = 2 := by decide

/-- C3 amended: when the transformed body already starts with `#` the
converter keeps it unchanged (so an input whose single `<h1>` comes first
yields `# <text>` as the first body line); otherwise it prepends the
file-name-derived `# <Title>` and the `<h1>`-derived heading remains
further down, giving a second level-1 line. -/
theorem c3_title_heading_insertion (x f : List Char) :
    (startsHash (transformContent (extractContent x)) = true →
      convertBodyL x f = transformContent (extractContent x))
  ∧ (startsHash (transformContent (extractContent x)) = false →
      convertBodyL x f = "# ".data ++ deriveTitleL f ++ "\n\n".data ++
        transformContent (extractContent x)) := by
  constructor <;> intro h <;> simp [convertBodyL, h]

/-- C3 witness: both branches of the amended statement at concrete inputs
(the `<h1>`-first document keeps its own heading; the `<p>`-first document
gets the title heading prepended). -/
theorem c3_witness :
    convertBodyL "<h1>Hello</h1><p>x</p>".data "quick-start.vue".data =
      transformContent (extractContent "<h1>Hello</h1><p>x</p>".data)
  ∧ convertBodyL "<p>x</p><h1>Hello</h1>".data "quick-start.vue".data =
      "# ".data ++ deriveTitleL "quick-start.vue".data ++ "\n\n".data ++
        transformContent (extractContent "<p>x</p><h1>Hello</h1>".data) :=
  ⟨(c3_title_heading_insertion "<h1>Hello</h1><p>x</p>".data "quick-start.vue".data).1
      (by decide),
   (c3_title_heading_insertion "<p>x</p><h1>Hello</h1>".data "quick-start.vue".data).2
      (by decide)⟩

/-- C4 counterexample: a document whose script section is closed by the
HTML-valid variant `</script >` (with a space) is not matched by the
extractor's pattern, so the script payload `const secret = 1;` remains in
the extracted text — the extractor does not remove every script payload. -/
theorem c4_cex :
    extractContent "<template><script>const secret = 1;</script ></template>".data =
      "<script>const secret = 1;</script >".data
  ∧ containsSubL
      (extractContent "<template><script>const secret = 1;</script ></template>".data)
      "const secret = 1;".data = true := by decide

/-- C4 amended: for a document whose script and style sections are closed
by the exact lowercase `</script>` and `</style>` tags, the extractor
removes the wrapping template tags, both payload sections, and comments,
leaving only markup. -/
theorem c4_wellformed_extraction :
    extractContent ("<template><script setup>const secret = 1;</script>" ++
        "<style scoped>.a color red</style><!-- note --><p>hi</p></template>").data =
      "<p>hi</p>".data
  ∧ containsSubL (extractContent ("<template><script setup>const secret = 1;</script>" ++
        "<style scoped>.a color red</style><!-- note --><p>hi</p></template>").data)
      "secret".data = false
  ∧ containsSubL (extractContent ("<template><script setup>const secret = 1;</script>" ++
        "<style scoped>.a color red</style><!-- note --><p>hi</p></template>").data)
      "color".data = false := by decide

/-- C5 counterexample: title derivation only strips the literal `.vue`
extension, so the file name `quick-start.ext` yields `Quick Start.Ext`,
not `Quick Start`. -/
theorem c5_cex :
    deriveTitleL "quick-start.ext".data = "Quick Start.Ext".data
  ∧ deriveTitleL "quick-start.ext".data ≠ "Quick Start".data := by decide

/-- C5 amended: for the extension the converter actually handles, the file
name `quick-start.vue` yields the title `Quick Start` (extension removed,
hyphens to spaces, word-initial letters capitalized). -/
theorem c5_title_derivation :
    deriveTitleL "quick-start.vue".data = "Quick Start".data := by decide

/-- C6: for `<pre><code class="language-go">fmt.Println("hi")</code></pre>`
the converter's output contains a fenced block opened with three backticks
and `go`, closed with three backticks, with the inner text preserved
verbatim between the fences. -/
theorem c6_fenced_code_block :
    convertVueToMarkdown
        "<pre><code class=\"language-go\">fmt.Println(\"hi\")</code></pre>" "test.vue" =
      "---\ntitle: Test\ndescription: Test documentation for Base Framework.\n---\n\n# Test\n\n```go\nfmt.Println(\"hi\")\n```"
  ∧ containsSub
      (convertVueToMarkdown
        "<pre><code class=\"language-go\">fmt.Println(\"hi\")</code></pre>" "test.vue")
      "```go\nfmt.Println(\"hi\")\n```" = true := by decide

/-- C7: per-file failure isolation — for every converter, environment, and
configured file list, the batch produces exactly one log message per file
(each determined by that file alone, so no file's failure prevents a later
file from being processed), the written outputs are exactly the per-file
successes, and every per-file message mentions its file name. -/
theorem c7_failure_isolation (conv : String → String → Except String String)
    (env : Env) (files : List String) :
    (runBatch conv env files).2 =
      files.map (fun f => (fileStep conv env f).2) ++ [finalMsg]
  ∧ (runBatch conv env files).1 =
      files.filterMap (fun f => (fileStep conv env f).1)
  ∧ ∀ f : String, containsSub (fileStep conv env f).2 f = true := by
  refine ⟨?_, ?_, fun f => fileStep_log_mentions conv env f⟩
  · show (runBatchGo conv env files).2 ++ [finalMsg] = _
    rw [(runBatchGo_spec conv env files).1]
  · exact (runBatchGo_spec conv env files).2

/-- C8: write atomicity — if the conversion of a file's content throws, the
per-file step performs no write for that file (the destination state is
unchanged). -/
theorem c8_no_write_on_failure (conv : String → String → Except String String)
    (env : Env) (file content e : String)
    (hrd : env.read (SOURCE_DIR ++ "/" ++ file) = .ok content)
    (hcv : conv content file = .error e) :
    (fileStep conv env file).1 = none := by
  unfold fileStep
  dsimp only
  split
  · rw [hrd]
    dsimp only
    rw [hcv]
  · rfl

/-- C8 witness: with a converter that always throws and an environment
where the file exists and is readable, no write is performed. -/
theorem c8_witness : (fileStep convFail envOk "a.vue").1 = none :=
  c8_no_write_on_failure convFail envOk "a.vue" "<h1>Doc</h1>" "boom" rfl rfl

/-- C9 counterexample: for the input `<h2>Sub</h2>` the produced body is
`## Sub` — it already starts with `#` so no title heading is inserted, and
the document contains no level-1 heading at all, contradicting "exactly
one leading level-1 heading". -/
theorem c9_cex :
    convertBodyL "<h2>Sub</h2>".data "api.vue".data = "## Sub".data
  ∧ ((splitNl (convertBodyL "<h2>Sub</h2>".data "api.vue".data)).filter
      (fun l => isPre "# ".data l)).length = 0 := by decide

/-- C9 amended: every produced document is the frontmatter block followed
by a body that begins with a `#` character (a heading of some level, not
necessarily level 1); `# <Title>` is prepended exactly when the
transformed body does not already begin with `#`. -/
theorem c9_document_structure (x f : List Char) :
    convertL x f = frontmatterL (deriveTitleL f) ++ convertBodyL x f
  ∧ startsHash (convertBodyL x f) = true := by
  refine ⟨rfl, ?_⟩
  unfold convertBodyL
  dsimp only
  cases h : startsHash (transformContent (extractContent x)) with
  | true => rw [if_pos rfl]; exact h
  | false => rw [if_neg (by simp)]; rfl

/-- C10: rerunning the converter on its own output corrupts a heading — for
the pure-Markdown input consisting of `# Hello`, a blank line and `world`,
the first run preserves the heading line `# Hello`, but the second run
rewrites the frontmatter delimiters to `- -` and the dash-cleanup stage
then absorbs the following heading, leaving `- # Hello` instead. -/
theorem c10_second_run_corrupts_heading :
    "# Hello".data ∈ splitNl (convertL "# Hello\n\nworld".data "doc.vue".data)
  ∧ "# Hello".data ∉
      splitNl (convertL (convertL "# Hello\n\nworld".data "doc.vue".data) "doc.vue".data)
  ∧ "- # Hello".data ∈
      splitNl (convertL (convertL "# Hello\n\nworld".data "doc.vue".data) "doc.vue".data) := by
  decide

end BaseDocs





